import Mathlib

/-!
Shallow embedding of the LS8 emulator in `src/ls8/cpu.py`.

Modelling conventions:
* Python integers are unbounded, so register/memory cells are `Nat` and the
  signed intermediate results of `SUB`/`DEC`/`NOT` are computed in `Int`.
  Python's `x & 0xFF` equals `x mod 256` for every integer `x` (two's
  complement bitwise semantics), so the final `self.reg[reg_a] &= 0b11111111`
  of `CPU.alu` is modelled as `mask8`, i.e. `(· % 256).toNat` on `Int`.
* `self.reg` is a Python list of length 8 and `self.ram` a list of length 256;
  both are modelled as total functions `Nat → Nat`.  Every access made by the
  claims stays inside the valid index range (out-of-range access would raise
  `IndexError` in Python and is not exercised).
* The `mar`/`mdr` latches, the `clock` array and `trace`/`load` are not
  observed by any claim and are omitted; `time()` and the `msvcrt` keyboard
  poll are environment input and are abstracted as explicit cycle inputs.
* `print` calls (PRA, PRN, error reports) only write to the console; they do
  not affect machine state and are dropped.
* Fallible paths return `Option`: `CPU.alu` on `DIV` with a nonzero divisor
  stores a float (`/=` is true division) and then crashes with `TypeError` on
  the `&= 0xFF` mask, and `alu` raises on a non-ALU mnemonic; both are `none`.
-/

namespace LS8

/-- The 34 mnemonics, the values of `disp_table` in `cpu.py`. -/
inductive Mn where
  | ADD | AND | CALL | CMP | DEC | DIV | HLT | INC | INT | IRET
  | JEQ | JGE | JGT | JLE | JLT | JMP | JNE | LD | LDI | MOD
  | MUL | NOP | NOT | OR | POP | PRA | PRN | PUSH | RET | SHL
  | SHR | ST | SUB | XOR
  deriving DecidableEq, Repr

/-- `disp_table`: opcode byte → mnemonic (lines 7-20 of `cpu.py`). -/
def disp_table (op : Nat) : Option Mn :=
  match op with
  | 0b10100000 => some .ADD
  | 0b10101000 => some .AND
  | 0b01010000 => some .CALL
  | 0b10100111 => some .CMP
  | 0b01100110 => some .DEC
  | 0b10100011 => some .DIV
  | 0b00000001 => some .HLT
  | 0b01100101 => some .INC
  | 0b01010010 => some .INT
  | 0b00010011 => some .IRET
  | 0b01010101 => some .JEQ
  | 0b01011010 => some .JGE
  | 0b01010111 => some .JGT
  | 0b01011001 => some .JLE
  | 0b01011000 => some .JLT
  | 0b01010100 => some .JMP
  | 0b01010110 => some .JNE
  | 0b10000011 => some .LD
  | 0b10000010 => some .LDI
  | 0b10100100 => some .MOD
  | 0b10100010 => some .MUL
  | 0b00000000 => some .NOP
  | 0b01101001 => some .NOT
  | 0b10101010 => some .OR
  | 0b01000110 => some .POP
  | 0b01001000 => some .PRA
  | 0b01000111 => some .PRN
  | 0b01000101 => some .PUSH
  | 0b00010001 => some .RET
  | 0b10101100 => some .SHL
  | 0b10101101 => some .SHR
  | 0b10000100 => some .ST
  | 0b10100001 => some .SUB
  | 0b10101011 => some .XOR
  | _ => none

/-- Machine state: `self.reg`, `self.ram`, `self.pc`, `self.ir`, `self.flags`.
Register 5 is the Interrupt Mask, 6 the Interrupt Status, 7 the Stack
Pointer; `flags` is the `H0000LGE` byte. -/
structure CPU where
  reg : Nat → Nat
  ram : Nat → Nat
  pc : Nat
  ir : Nat
  flags : Nat

/-- `self.reg[i] = v`. -/
def setReg (s : CPU) (i v : Nat) : CPU :=
  { s with reg := fun j => if j = i then v else s.reg j }

/-- `ram_read` (the `mar`/`mdr` latching is unobservable and dropped). -/
def ram_read (s : CPU) (address : Nat) : Nat := s.ram address

/-- `ram_write`. -/
def ram_write (s : CPU) (address data : Nat) : CPU :=
  { s with ram := fun j => if j = address then data else s.ram j }

/-- Python `v & 0xFF` on an arbitrary integer: reduce mod 256. -/
def mask8 (v : Int) : Nat := (v % 256).toNat

/-- `self.alu("INC", a)`: add one, then the final 8-bit mask of line 222. -/
def aluINC (s : CPU) (a : Nat) : CPU :=
  setReg s a (mask8 ((s.reg a : Int) + 1))

/-- `self.alu("DEC", a)`: subtract one, then the final 8-bit mask. -/
def aluDEC (s : CPU) (a : Nat) : CPU :=
  setReg s a (mask8 ((s.reg a : Int) - 1))

/-- `CPU.HLT`: set the halt bit of the flags byte. -/
def HLT (s : CPU) : CPU := { s with flags := s.flags ||| 0b10000000 }

/-- The flags byte produced by the `CMP` arm of `CPU.alu` (lines 163-179),
given the three comparison outcomes. -/
def cmpFlags (f : Nat) (lt gt eq : Bool) : Nat :=
  let f := if lt then f ||| 0b00000100 else f &&& 0b11111011
  let f := if gt then f ||| 0b00000010 else f &&& 0b11111101
  if eq then f ||| 0b00000001 else f &&& 0b11111110

/-- `CPU.alu` (lines 125-222).  Each arm computes the Python expression and
immediately applies the trailing `self.reg[reg_a] &= 0xFF` of line 222.
`DIV`/`MOD` by zero print an error and call `HLT`; `DIV` with a nonzero
divisor is `none`: `/=` is Python true division, which stores a float, and
the `&= 0xFF` mask then raises `TypeError`.  A mnemonic without an arm
raises `Unsupported ALU operation`, modelled as `none`.  `reg_b` defaults to
`None` in Python and is unread by `INC`/`DEC`/`NOT`; callers pass `0`. -/
def alu (s : CPU) (op : Mn) (reg_a reg_b : Nat) : Option CPU :=
  match op with
  | .ADD => some (setReg s reg_a (mask8 ((s.reg reg_a : Int) + (s.reg reg_b : Int))))
  | .SUB => some (setReg s reg_a (mask8 ((s.reg reg_a : Int) - (s.reg reg_b : Int))))
  | .MUL => some (setReg s reg_a (mask8 ((s.reg reg_a : Int) * (s.reg reg_b : Int))))
  | .DIV =>
      if s.reg reg_b = 0 then
        some (setReg (HLT s) reg_a (mask8 (s.reg reg_a)))
      else none
  | .MOD =>
      if s.reg reg_b = 0 then
        some (setReg (HLT s) reg_a (mask8 (s.reg reg_a)))
      else
        some (setReg s reg_a (mask8 ((s.reg reg_a % s.reg reg_b : Nat) : Int)))
  | .CMP =>
      let f := cmpFlags s.flags (decide (s.reg reg_a < s.reg reg_b))
        (decide (s.reg reg_b < s.reg reg_a)) (decide (s.reg reg_a = s.reg reg_b))
      let s := { s with flags := f }
      some (setReg s reg_a (mask8 (s.reg reg_a)))
  | .INC => some (aluINC s reg_a)
  | .DEC => some (aluDEC s reg_a)
  | .AND => some (setReg s reg_a (mask8 ((s.reg reg_a &&& s.reg reg_b : Nat) : Int)))
  | .OR => some (setReg s reg_a (mask8 ((s.reg reg_a ||| s.reg reg_b : Nat) : Int)))
  | .XOR => some (setReg s reg_a (mask8 ((s.reg reg_a ^^^ s.reg reg_b : Nat) : Int)))
  | .NOT => some (setReg s reg_a (mask8 (-(s.reg reg_a : Int) - 1)))
  | .SHL => some (setReg s reg_a (mask8 ((s.reg reg_a <<< s.reg reg_b : Nat) : Int)))
  | .SHR => some (setReg s reg_a (mask8 ((s.reg reg_a >>> s.reg reg_b : Nat) : Int)))
  | _ => none

/-- `CPU.CALL`: decrement SP, store `ir + 2` (the address after the 2-byte
CALL), then `JMP` (lines 338-347). -/
def CALL (s : CPU) (register : Nat) : CPU :=
  let s := aluDEC s 7
  let s := ram_write s (s.reg 7) (s.ir + 2)
  { s with ir := s.reg register }

/-- `CPU.INT`: set bit number `reg[register]` of the Interrupt Status
register (line 356).  Note the shift amount is the register's VALUE and the
result is not masked. -/
def INT (s : CPU) (register : Nat) : CPU :=
  setReg s 6 (s.reg 6 ||| (1 <<< s.reg register))

/-- `CPU.POP`: read the byte at the stack pointer into the register, then
increment the stack pointer (lines 437-442). -/
def POP (s : CPU) (register : Nat) : CPU :=
  let s := setReg s register (ram_read s (s.reg 7))
  aluINC s 7

/-- `CPU.PUSH`: decrement the stack pointer, then write the register's value
at the new stack pointer (lines 454-459). -/
def PUSH (s : CPU) (register : Nat) : CPU :=
  let s := aluDEC s 7
  ram_write s (s.reg 7) (s.reg register)

/-- `CPU.IRET` (lines 358-375): pop R6..R0, pop flags, pop the return
address into `ir`. -/
def IRET (s : CPU) : CPU :=
  let s := POP s 6
  let s := POP s 5
  let s := POP s 4
  let s := POP s 3
  let s := POP s 2
  let s := POP s 1
  let s := POP s 0
  let s := { s with flags := ram_read s (s.reg 7) }
  let s := aluINC s 7
  let s := { s with ir := ram_read s (s.reg 7) }
  aluINC s 7

/-- `CPU.JMP`: `self.ir = self.reg[register]`. -/
def JMP (s : CPU) (register : Nat) : CPU := { s with ir := s.reg register }

/-- `CPU.JEQ`: jump when `flags & 0b001` is nonzero, else fall through. -/
def JEQ (s : CPU) (register : Nat) : CPU :=
  if s.flags &&& 0b00000001 ≠ 0 then { s with ir := s.reg register }
  else { s with ir := s.ir + 2 }

/-- `CPU.JGE`: jump when `flags & 0b101` is nonzero, else fall through. -/
def JGE (s : CPU) (register : Nat) : CPU :=
  if s.flags &&& 0b00000101 ≠ 0 then { s with ir := s.reg register }
  else { s with ir := s.ir + 2 }

/-- `CPU.JGT`: jump when `flags & 0b100` is nonzero, else fall through. -/
def JGT (s : CPU) (register : Nat) : CPU :=
  if s.flags &&& 0b00000100 ≠ 0 then { s with ir := s.reg register }
  else { s with ir := s.ir + 2 }

/-- `CPU.JLE`: jump when `flags & 0b011` is nonzero, else fall through. -/
def JLE (s : CPU) (register : Nat) : CPU :=
  if s.flags &&& 0b00000011 ≠ 0 then { s with ir := s.reg register }
  else { s with ir := s.ir + 2 }

/-- `CPU.JLT`: jump when `flags & 0b010` is nonzero, else fall through. -/
def JLT (s : CPU) (register : Nat) : CPU :=
  if s.flags &&& 0b00000010 ≠ 0 then { s with ir := s.reg register }
  else { s with ir := s.ir + 2 }

/-- `CPU.JNE`: jump when `flags & 0b001` is zero, else fall through. -/
def JNE (s : CPU) (register : Nat) : CPU :=
  if s.flags &&& 0b00000001 = 0 then { s with ir := s.reg register }
  else { s with ir := s.ir + 2 }

/-- `CPU.LD`: load registerA from the memory address held in registerB. -/
def LD (s : CPU) (registerA registerB : Nat) : CPU :=
  setReg s registerA (ram_read s (s.reg registerB))

/-- `CPU.LDI`: set the register to the immediate operand byte. -/
def LDI (s : CPU) (register immediate : Nat) : CPU :=
  setReg s register immediate

/-- `CPU.NOP`. -/
def NOP (s : CPU) : CPU := s

/-- `CPU.PRA`: console output only; machine state unchanged. -/
def PRA (s : CPU) (_register : Nat) : CPU := s

/-- `CPU.PRN`: console output only; machine state unchanged. -/
def PRN (s : CPU) (_register : Nat) : CPU := s

/-- `CPU.RET`: read the byte at the stack pointer into `ir`, then increment
the stack pointer (lines 461-465). -/
def RET (s : CPU) : CPU :=
  let s := { s with ir := ram_read s (s.reg 7) }
  aluINC s 7

/-- `CPU.ST`: write registerB's value at the address held in registerA. -/
def ST (s : CPU) (registerA registerB : Nat) : CPU :=
  ram_write s (s.reg registerA) (s.reg registerB)

/-- `CPU.interrupt` (lines 267-280).  `reg[6] &= ~(1 << i_num)` clears bit
`i_num` and keeps every other bit; on a nonnegative integer that is exactly
`x ^^^ (x &&& (1 <<< i_num))`.  Note the source then calls `POP` seven
times (reading stack bytes into R0..R6 and incrementing SP), and finally
sets `pc` to `i_num | 0xF8`, the vector table ADDRESS itself. -/
def interrupt (s : CPU) (i_num : Nat) : CPU :=
  let s := setReg s 6 (s.reg 6 ^^^ (s.reg 6 &&& (1 <<< i_num)))
  let s := aluDEC s 7
  let s := ram_write s (s.reg 7) s.pc
  let s := aluDEC s 7
  let s := ram_write s (s.reg 7) s.flags
  let s := POP s 0
  let s := POP s 1
  let s := POP s 2
  let s := POP s 3
  let s := POP s 4
  let s := POP s 5
  let s := POP s 6
  { s with pc := i_num ||| 0b11111000 }

/-- Zero-operand method dispatch (`getattr(self, disp_table[opcode])()`).
A mnemonic with no zero-argument method raises in Python: `none`. -/
def method0 (s : CPU) (mn : Mn) : Option CPU :=
  match mn with
  | .HLT => some (HLT s)
  | .IRET => some (IRET s)
  | .NOP => some (NOP s)
  | .RET => some (RET s)
  | _ => none

/-- One-operand method dispatch. -/
def method1 (s : CPU) (mn : Mn) (a : Nat) : Option CPU :=
  match mn with
  | .CALL => some (CALL s a)
  | .INT => some (INT s a)
  | .JEQ => some (JEQ s a)
  | .JGE => some (JGE s a)
  | .JGT => some (JGT s a)
  | .JLE => some (JLE s a)
  | .JLT => some (JLT s a)
  | .JMP => some (JMP s a)
  | .JNE => some (JNE s a)
  | .POP => some (POP s a)
  | .PRA => some (PRA s a)
  | .PRN => some (PRN s a)
  | .PUSH => some (PUSH s a)
  | _ => none

/-- Two-operand method dispatch. -/
def method2 (s : CPU) (mn : Mn) (a b : Nat) : Option CPU :=
  match mn with
  | .LD => some (LD s a b)
  | .LDI => some (LDI s a b)
  | .ST => some (ST s a b)
  | _ => none

/-- Lines 307-308 etc.: advance `ir` by the instruction width unless bit 4
of the opcode (held in `pc` during dispatch) is set. -/
def advance (s : CPU) (width : Nat) : CPU :=
  if s.pc &&& 0b00010000 = 0 then { s with ir := s.ir + width } else s

/-- One fetch-decode-execute step, lines 300-331 of `CPU.run`: save the
address in `ir`, fetch the opcode into `pc`, dispatch on the opcode's two
high bits (operand count) and bit 5 (ALU instruction), advance `ir` by the
instruction width unless opcode bit 4 is set, and restore `pc := ir`.  An
opcode missing from `disp_table` prints an error and sets the halt flag,
leaving `pc` holding the fetched byte and `ir` the failing address. -/
def execStep (s0 : CPU) : Option CPU :=
  let s := { s0 with ir := s0.pc, pc := ram_read s0 s0.pc }
  match disp_table s.pc with
  | some mn =>
      if s.pc >>> 6 = 0b00 then
        (method0 s mn).map fun s1 =>
          let s2 := advance s1 1
          { s2 with pc := s2.ir }
      else if s.pc >>> 6 = 0b01 then
        if s.pc &&& 0b00100000 ≠ 0 then
          (alu s mn (ram_read s (s.ir + 1)) 0).map fun s1 =>
            let s2 := advance s1 2
            { s2 with pc := s2.ir }
        else
          (method1 s mn (ram_read s (s.ir + 1))).map fun s1 =>
            let s2 := advance s1 2
            { s2 with pc := s2.ir }
      else
        if s.pc &&& 0b00100000 ≠ 0 then
          (alu s mn (ram_read s (s.ir + 1)) (ram_read s (s.ir + 2))).map fun s1 =>
            let s2 := advance s1 3
            { s2 with pc := s2.ir }
        else
          (method2 s mn (ram_read s (s.ir + 1)) (ram_read s (s.ir + 2))).map fun s1 =>
            let s2 := advance s1 3
            { s2 with pc := s2.ir }
  | none => some { s with flags := s.flags ||| 0b10000000 }

/-- Lines 286-293 of `CPU.run`: the time poll (a changed second sets IS bit
0) and the non-blocking keyboard poll (a pressed key sets IS bit 1 and is
stored at 0xF4).  Clock and keyboard are environment input, abstracted as
the two parameters. -/
def pollEffects (secondChanged : Bool) (key : Option Nat) (s : CPU) : CPU :=
  let s := if secondChanged then setReg s 6 (s.reg 6 ||| 0b00000001) else s
  match key with
  | some k => ram_write (setReg s 6 (s.reg 6 ||| 0b00000010)) 0b11110100 k
  | none => s

/-- Line 296: interrupt `i` is eligible when its bit is set in both the
Interrupt Mask (register 5) and the Interrupt Status (register 6). -/
def eligible (s : CPU) (i : Nat) : Bool :=
  ((s.reg 5 &&& (1 <<< i)) &&& (s.reg 6 &&& (1 <<< i))) ≠ 0

/-- Lines 295-298: the `for i_num in range(8): ... break` loop delivers the
interrupt of the first eligible number, unrolled. -/
def firstEligible (s : CPU) : Option Nat :=
  if eligible s 0 then some 0
  else if eligible s 1 then some 1
  else if eligible s 2 then some 2
  else if eligible s 3 then some 3
  else if eligible s 4 then some 4
  else if eligible s 5 then some 5
  else if eligible s 6 then some 6
  else if eligible s 7 then some 7
  else none

/-- One full iteration of the `while` loop body of `CPU.run` (lines
286-331): polls, at most one interrupt delivery, then the normal
fetch-decode-execute step. -/
def runCycle (secondChanged : Bool) (key : Option Nat) (s : CPU) : Option CPU :=
  let s := pollEffects secondChanged key s
  match firstEligible s with
  | some i => execStep (interrupt s i)
  | none => execStep s

/-- Fuel-bounded `CPU.run` while loop: iterate `runCycle` while the halt bit
of `flags` is clear.  `none` means fuel ran out or a cycle crashed. -/
def run (fuel : Nat) (ticks : Nat → Bool) (keys : Nat → Option Nat) (s : CPU) : Option CPU :=
  match fuel with
  | 0 => none
  | f + 1 =>
      if s.flags &&& 0b10000000 ≠ 0 then some s
      else
        match runCycle (ticks f) (keys f) s with
        | some s1 => run f ticks keys s1
        | none => none

/-! ### Concrete machine states used to evaluate the code on explicit inputs -/

/-- A state about to receive interrupt 0: SP = 0xF3, PC = 0x10,
flags = 0x01, IM = IS = 0x01, vector entry `ram[0xF8] = 0x50`, distinctive
values in R0..R4, all other memory 0. -/
def auditIntState : CPU :=
  { reg := fun i =>
      if i = 0 then 0x11 else if i = 1 then 0x22 else if i = 2 then 0x33
      else if i = 3 then 0x44 else if i = 4 then 0x55 else if i = 5 then 0x01
      else if i = 6 then 0x01 else if i = 7 then 0xF3 else 0
    ram := fun a => if a = 0xF8 then 0x50 else 0
    pc := 0x10, ir := 0, flags := 0x01 }

/-- A state with `reg[0] = 6` and `reg[1] = 2`, for exercising the ALU. -/
def auditAluState : CPU :=
  { reg := fun i => if i = 0 then 6 else if i = 1 then 2 else if i = 7 then 0xF3 else 0
    ram := fun _ => 0, pc := 0, ir := 0, flags := 0 }

/-- A state whose flags byte is `0b010` (only the Greater-than bit of the
`H0000LGE` encoding set) with `reg[0] = 0x50`, `ir = 0x64`. -/
def auditGtState : CPU :=
  { reg := fun i => if i = 0 then 0x50 else 0
    ram := fun _ => 0, pc := 0, ir := 0x64, flags := 0b00000010 }

/-- Same as `auditGtState` but with flags `0b100` (only the Less-than bit). -/
def auditLtState : CPU :=
  { reg := fun i => if i = 0 then 0x50 else 0
    ram := fun _ => 0, pc := 0, ir := 0x64, flags := 0b00000100 }

/-- A state ready to run `CALL R0` at address 0: `reg[0] = 0x40`, a RET at
0x40, SP = 0xF3. -/
def auditCallState : CPU :=
  { reg := fun i => if i = 0 then 0x40 else if i = 7 then 0xF3 else 0
    ram := fun a => if a = 0 then 0x50 else if a = 0x40 then 0x11 else 0
    pc := 0, ir := 0, flags := 0 }

/-- A state whose program counter points at the byte 0xFF, which is not an
opcode of the mnemonic table. -/
def auditBadOpState : CPU :=
  { reg := fun i => if i = 7 then 0xF3 else 0
    ram := fun a => if a = 0x10 then 0xFF else 0
    pc := 0x10, ir := 0, flags := 0 }

/-- A state with interrupt 0 pending and enabled (IM = 0xFF, IS = 0x01),
SP = 0xF3, PC = 0, and all memory zero (so the vector region holds NOPs). -/
def auditPendingState : CPU :=
  { reg := fun i => if i = 5 then 0xFF else if i = 6 then 0x01
                    else if i = 7 then 0xF3 else 0
    ram := fun _ => 0, pc := 0, ir := 0, flags := 0 }

/-- A state whose registers are all 8-bit, with `reg[0] = 8` (an interrupt
number just past the 8 hardware interrupts). -/
def auditInt8State : CPU :=
  { reg := fun i => if i = 0 then 8 else if i = 7 then 0xF3 else 0
    ram := fun _ => 0, pc := 0, ir := 0, flags := 0 }

/-- A state for exercising IRET: SP = 0xF0, the saved flags slot
`ram[0xF7]` holds 0xAB, the current flags byte is 0. -/
def auditIretState : CPU :=
  { reg := fun i => if i = 7 then 0xF0 else 0
    ram := fun a => if a = 0xF7 then 0xAB else 0
    pc := 0, ir := 0, flags := 0 }

/-- The 8 registers all hold unsigned 8-bit values. -/
def RegsOk (s : CPU) : Prop := ∀ i, i < 8 → s.reg i ≤ 255

/-- Every memory cell holds an unsigned 8-bit value. -/
def RamOk (s : CPU) : Prop := ∀ a, s.ram a ≤ 255

/-! ### Projection lemmas for the two state-update primitives -/

@[simp] theorem setReg_reg (s : CPU) (i v j : Nat) :
    (setReg s i v).reg j = if j = i then v else s.reg j := rfl

@[simp] theorem setReg_ram (s : CPU) (i v : Nat) : (setReg s i v).ram = s.ram := rfl

@[simp] theorem setReg_pc (s : CPU) (i v : Nat) : (setReg s i v).pc = s.pc := rfl

@[simp] theorem setReg_ir (s : CPU) (i v : Nat) : (setReg s i v).ir = s.ir := rfl

@[simp] theorem setReg_flags (s : CPU) (i v : Nat) : (setReg s i v).flags = s.flags := rfl

@[simp] theorem ram_write_ram (s : CPU) (a d j : Nat) :
    (ram_write s a d).ram j = if j = a then d else s.ram j := rfl

@[simp] theorem ram_write_reg (s : CPU) (a d : Nat) : (ram_write s a d).reg = s.reg := rfl

@[simp] theorem ram_write_pc (s : CPU) (a d : Nat) : (ram_write s a d).pc = s.pc := rfl

@[simp] theorem ram_write_ir (s : CPU) (a d : Nat) : (ram_write s a d).ir = s.ir := rfl

@[simp] theorem ram_write_flags (s : CPU) (a d : Nat) : (ram_write s a d).flags = s.flags := rfl

/-- `mask8` is bounded by 255. -/
theorem mask8_le (v : Int) : mask8 v ≤ 255 := by unfold mask8; omega

/-- Decrement-then-increment of an 8-bit value is the identity. -/
theorem mask8_dec_inc (x : Nat) (h : x < 256) :
    mask8 ((mask8 ((x : Int) - 1) : Int) + 1) = x := by unfold mask8; omega

/-- Setting the halt bit makes the halt bit set, whatever the flags were. -/
theorem or128_and128 (x : Nat) : (x ||| 128) &&& 128 = 128 := by
  have h := Nat.and_two_pow (x ||| 128) 7
  rw [Nat.testBit_or, show Nat.testBit 128 7 = true from by decide] at h
  simpa using h

/-! ### C1: interrupt delivery -/

/-- **C1** (code bug).  The claim says `CPU.interrupt` pushes R0..R6 and
jumps to the handler address stored at `0xF8 + n`.  Evaluating the code on
`auditIntState` (SP = 0xF3, PC = 0x10, flags = 0x01, vector entry
`ram[0xF8] = 0x50`) shows the opposite: the seven `POP` calls load R0 with
the just-pushed flags byte (0x01) and R1 with the pushed return address
(0x10), the stack pointer ends 5 HIGHER (0xF8, not 0xF3 − 9 = 0xEA), memory
below the stack is never written, and the program counter is set to the
vector table address 0xF8 itself instead of the handler address 0x50 stored
there. -/
theorem C1_interrupt_pops_instead_of_pushing :
    (interrupt auditIntState 0).pc = 0xF8 ∧
    (interrupt auditIntState 0).reg 7 = 0xF8 ∧
    (interrupt auditIntState 0).reg 0 = 0x01 ∧
    (interrupt auditIntState 0).reg 1 = 0x10 ∧
    (interrupt auditIntState 0).ram 0xEA = 0 ∧
    (interrupt auditIntState 0).ram 0xEB = 0 := by
  decide

/-! ### C2: ALU results are the mathematical operation mod 256 -/

/-- **C2** (code bug).  The claim quantifies over all thirteen ALU
operations, including DIV.  But `CPU.alu`'s DIV arm uses Python true
division `/=`, which stores a float, and the final `&= 0xFF` mask then
raises `TypeError`: with `reg[0] = 6` and `reg[1] = 2` no quotient is ever
stored and the emulator crashes (modelled as `none`), where the claim
requires 3 to be stored.  The other arms do satisfy the mod-256 law, e.g.
ADD of 0xFF and 0x01 stores 0x00. -/
theorem C2_div_true_division_crashes :
    alu auditAluState .DIV 0 1 = none ∧
    ((alu { auditAluState with reg := fun i => if i = 0 then 0xFF else 0x01 }
      .ADD 0 1).map fun t => t.reg 0) = some 0x00 := by
  constructor
  · rfl
  · decide

/-! ### C3: conditional jumps read the flag their predicate names -/

/-- **C3** (code bug).  Under the `H0000LGE` flag encoding written by CMP
(bit 0 = Equal, bit 1 = Greater-than, bit 2 = Less-than), `CPU.JGT` tests
`flags & 0b100` — the Less-than bit — and `CPU.JLT` tests `flags & 0b010` —
the Greater-than bit (`CPU.JGE`/`CPU.JLE` are likewise swapped).  With only
the Greater-than flag set (`auditGtState`), JGT falls through (`ir` becomes
0x64 + 2 = 0x66) instead of jumping to 0x50 as the claim requires, and JLT
jumps; with only the Less-than flag set (`auditLtState`) the two behave in
the opposite, equally wrong, way. -/
theorem C3_jgt_jlt_test_swapped_flag_bits :
    (JGT auditGtState 0).ir = 0x66 ∧
    (JLT auditGtState 0).ir = 0x50 ∧
    (JGT auditLtState 0).ir = 0x50 ∧
    (JLT auditLtState 0).ir = 0x66 ∧
    (JGE auditGtState 0).ir = 0x66 ∧
    (JLE auditLtState 0).ir = 0x66 := by
  decide

/-! ### C6: PUSH/POP round trip -/

/-- **C6** (confirmed).  For every register index `r` and every state whose
stack pointer holds an 8-bit value, PUSH r immediately followed by POP r
restores both the value of register `r` and the stack pointer (register 7)
to their pre-PUSH values. -/
theorem C6_push_pop_roundtrip (s : CPU) (r : Nat) (hr : r < 8)
    (hsp : s.reg 7 < 256) :
    (POP (PUSH s r) r).reg r = s.reg r ∧ (POP (PUSH s r) r).reg 7 = s.reg 7 := by
  by_cases h7 : r = 7
  · subst h7
    simp [POP, PUSH, aluDEC, aluINC, ram_read, mask8_dec_inc _ hsp]
  · have h7' : ¬(7 = r) := fun h => h7 h.symm
    simp [POP, PUSH, aluDEC, aluINC, ram_read, h7, h7', mask8_dec_inc _ hsp]

/-- Witness for `C6_push_pop_roundtrip` at `auditAluState`, `r = 0`. -/
theorem C6_push_pop_roundtrip_witness :
    (POP (PUSH auditAluState 0) 0).reg 0 = auditAluState.reg 0 ∧
    (POP (PUSH auditAluState 0) 0).reg 7 = auditAluState.reg 7 :=
  C6_push_pop_roundtrip auditAluState 0 (by decide) (by decide)

/-! ### C4: DIV/MOD by zero -/

/-- **C4** (confirmed).  For all register indices, executing DIV or MOD
when the second register holds zero reports the divide-by-zero error and
calls `HLT`, which sets the halt bit of the flags byte; the first register
keeps its (8-bit) value, and with the halt bit set the `run` loop exits
immediately, i.e. the machine is Halted. -/
theorem C4_div_mod_by_zero_halts (s : CPU) (a b : Nat)
    (ha : a < 8) (hb : b < 8) (hra : s.reg a < 256) (hzero : s.reg b = 0) :
    (∃ t, alu s .DIV a b = some t ∧ t.reg a = s.reg a ∧
       t.flags &&& 0b10000000 = 0b10000000 ∧
       ∀ fuel ticks keys, run (fuel + 1) ticks keys t = some t) ∧
    (∃ t, alu s .MOD a b = some t ∧ t.reg a = s.reg a ∧
       t.flags &&& 0b10000000 = 0b10000000 ∧
       ∀ fuel ticks keys, run (fuel + 1) ticks keys t = some t) := by
  have hdiv : alu s .DIV a b = some (setReg (HLT s) a (mask8 (s.reg a))) := by
    simp [alu, hzero]
  have hmod : alu s .MOD a b = some (setReg (HLT s) a (mask8 (s.reg a))) := by
    simp [alu, hzero]
  have hreg : (setReg (HLT s) a (mask8 (s.reg a))).reg a = s.reg a := by
    simp [mask8]; omega
  have hfl : (setReg (HLT s) a (mask8 (s.reg a))).flags &&& 0b10000000 = 0b10000000 := by
    simp [HLT, or128_and128]
  have hrun : ∀ fuel ticks keys,
      run (fuel + 1) ticks keys (setReg (HLT s) a (mask8 (s.reg a))) =
        some (setReg (HLT s) a (mask8 (s.reg a))) := by
    intro fuel ticks keys
    have hne : (HLT s).flags &&& 0b10000000 ≠ 0 := by
      show (s.flags ||| 0b10000000) &&& 0b10000000 ≠ 0
      rw [or128_and128]; decide
    simp [run, hne]
  exact ⟨⟨_, hdiv, hreg, hfl, hrun⟩, ⟨_, hmod, hreg, hfl, hrun⟩⟩

/-- Witness for `C4_div_mod_by_zero_halts`: `auditAluState` with `a = 0`
(holding 6) and `b = 2` (holding 0). -/
theorem C4_div_mod_by_zero_halts_witness :
    (∃ t, alu auditAluState .DIV 0 2 = some t ∧ t.reg 0 = auditAluState.reg 0 ∧
       t.flags &&& 0b10000000 = 0b10000000 ∧
       ∀ fuel ticks keys, run (fuel + 1) ticks keys t = some t) ∧
    (∃ t, alu auditAluState .MOD 0 2 = some t ∧ t.reg 0 = auditAluState.reg 0 ∧
       t.flags &&& 0b10000000 = 0b10000000 ∧
       ∀ fuel ticks keys, run (fuel + 1) ticks keys t = some t) :=
  C4_div_mod_by_zero_halts auditAluState 0 2 (by decide) (by decide) (by decide) (by decide)

/-! ### C5: unrecognized opcode -/

/-- **C5, claim as stated is false.**  At `auditBadOpState` (pc = 0x10,
`ram[0x10] = 0xFF`, which is not in `disp_table`) the engine does report and
halt, but the `pc` field ends holding 0xFF — the unrecognized byte itself,
assigned by the fetch `self.pc = self.ram_read(self.pc)` and never restored
on the error path — not the failing address 0x10 that the claim requires
(that address is left in `ir`). -/
theorem C5_counterexample_pc_not_failing_address :
    (execStep auditBadOpState).map (fun t => (t.pc, t.ir, t.flags)) =
      some (0xFF, 0x10, 0b10000000) ∧ (0xFF : Nat) ≠ 0x10 := by
  decide

/-- **C5** (corrected).  When the byte fetched at the program counter is
not in the 34-entry mnemonic table, the engine reports the decode error and
sets the halt flag (transitioning to Halted); the `ir` field holds the
address of the failing byte, while `pc` is left holding the fetched
unrecognized byte itself (the fetch overwrote it and the error path does
not restore it). -/
theorem C5_unrecognized_opcode_halts (s : CPU)
    (h : disp_table (ram_read s s.pc) = none) :
    execStep s = some { s with ir := s.pc, pc := ram_read s s.pc,
                               flags := s.flags ||| 0b10000000 } := by
  simp [execStep, h]

/-! ### C7: CALL / RET -/

/-- `disp_table` maps 0x50 to CALL. -/
theorem disp_table_at_call : disp_table 0x50 = some .CALL := rfl

/-- `disp_table` maps 0x11 to RET. -/
theorem disp_table_at_ret : disp_table 0x11 = some .RET := rfl

/-- **C7** (confirmed).  With a CALL instruction (opcode 0x50) at `pc`
whose operand names a general-purpose register holding `t`, and a RET
(opcode 0x11) at `t` that the pushed return address does not overwrite:
the first step jumps to `t` after pushing `pc + 2`, and the second step
(RET) pops it, leaving the program counter at the instruction immediately
after the 2-byte CALL and the stack pointer restored to its pre-CALL
value. -/
theorem C7_call_ret_returns_after_call (s : CPU) (sp r t : Nat)
    (hsp : s.reg 7 = sp) (hsp0 : 0 < sp) (hsp1 : sp < 256)
    (hop : s.ram s.pc = 0x50) (hoper : s.ram (s.pc + 1) = r) (hr : r < 7)
    (htgt : s.reg r = t) (hret : s.ram t = 0x11) (hne : t ≠ sp - 1) :
    ∃ s1 s2, execStep s = some s1 ∧ execStep s1 = some s2 ∧
      s1.pc = t ∧ s2.pc = s.pc + 2 ∧ s2.reg 7 = sp := by
  have hd : mask8 ((sp : Int) - 1) = sp - 1 := by unfold mask8; omega
  have hinc : mask8 (((sp - 1 : Nat) : Int) + 1) = sp := by unfold mask8; omega
  have hr7 : ¬(r = 7) := by omega
  have b1 : (80 : Nat) &&& 32 = 0 := by decide
  have b2 : (80 : Nat) &&& 16 = 16 := by decide
  have b3 : (17 : Nat) &&& 16 = 16 := by decide
  have e1 : execStep s = some
      ⟨fun j => if j = 7 then sp - 1 else s.reg j,
       fun j => if j = sp - 1 then s.pc + 2 else s.ram j,
       t, t, s.flags⟩ := by
    simp [execStep, ram_read, hop, hoper, disp_table_at_call, method1, CALL,
      JMP, setReg, ram_write, aluDEC, advance, hsp, hd, hr7, htgt, b1, b2]
  have e2 : execStep
      (⟨fun j => if j = 7 then sp - 1 else s.reg j,
        fun j => if j = sp - 1 then s.pc + 2 else s.ram j,
        t, t, s.flags⟩ : CPU) = some
      ⟨fun j => if j = 7 then sp else s.reg j,
       fun j => if j = sp - 1 then s.pc + 2 else s.ram j,
       s.pc + 2, s.pc + 2, s.flags⟩ := by
    simp [execStep, ram_read, disp_table_at_ret, method0, RET, setReg,
      ram_write, aluINC, advance, hne, hret, hinc, b3]
    funext j
    by_cases hj : j = 7 <;> simp [hj]
  exact ⟨_, _, e1, e2, rfl, rfl, by simp⟩

/-- Witness for `C7_call_ret_returns_after_call` at `auditCallState`. -/
theorem C7_call_ret_returns_after_call_witness :
    ∃ s1 s2, execStep auditCallState = some s1 ∧ execStep s1 = some s2 ∧
      s1.pc = 0x40 ∧ s2.pc = auditCallState.pc + 2 ∧ s2.reg 7 = 0xF3 :=
  C7_call_ret_returns_after_call auditCallState 0xF3 0 0x40 (by decide)
    (by decide) (by decide) (by decide) (by decide) (by decide) (by decide)
    (by decide) (by decide)

/-- Witness for `C5_unrecognized_opcode_halts` at `auditBadOpState`. -/
theorem C5_unrecognized_opcode_halts_witness :
    execStep auditBadOpState =
      some { auditBadOpState with
               ir := auditBadOpState.pc,
               pc := ram_read auditBadOpState auditBadOpState.pc,
               flags := auditBadOpState.flags ||| 0b10000000 } :=
  C5_unrecognized_opcode_halts auditBadOpState (by decide)

/-! ### C8: interrupt delivery within a run cycle -/

/-- **C8, claim as stated is false.**  At `auditPendingState` interrupt 0 is
delivered (it is eligible after polling), but the cycle does NOT restart: the
normal fetch at the updated program counter happens in the same cycle.  After
delivery `pc = 0xF8`; the byte there (0) is fetched and executed as NOP, so
the cycle ends with `pc = ir = 0xF9`.  Under the claim no fetch would occur
and the cycle would end immediately after delivery with `pc = 0xF8`. -/
theorem C8_counterexample_fetch_happens_same_cycle :
    firstEligible (pollEffects false none auditPendingState) = some 0 ∧
    (runCycle false none auditPendingState).map (fun u => (u.pc, u.ir, u.reg 6)) =
      some (0xF9, 0xF9, 0) ∧ (0xF9 : Nat) ≠ 0xF8 := by
  decide

/-- **C8** (corrected).  In every run-loop cycle in which some interrupt is
eligible (pending in IS and enabled in IM), exactly one interrupt — the
lowest-numbered eligible one — is delivered, and no interrupt below it is
eligible; but instead of restarting the cycle, the cycle continues with the
normal fetch-decode-execute step on the post-delivery state (in particular a
fetch does happen in that cycle, at the program counter the delivery set). -/
theorem C8_lowest_eligible_delivered_then_fetch (tick : Bool) (key : Option Nat)
    (s : CPU) (i : Nat)
    (h : firstEligible (pollEffects tick key s) = some i) :
    runCycle tick key s = execStep (interrupt (pollEffects tick key s) i) ∧
    eligible (pollEffects tick key s) i = true ∧
    ∀ j, j < i → eligible (pollEffects tick key s) j = false := by
  refine ⟨by simp [runCycle, h], ?_, ?_⟩
  · unfold firstEligible at h
    split_ifs at h <;> simp_all
  · unfold firstEligible at h
    split_ifs at h with h0 h1 h2 h3 h4 h5 h6 h7 <;>
      (injection h with h
       subst h
       intro j hj
       interval_cases j <;> simp_all)

/-- Witness for `C8_lowest_eligible_delivered_then_fetch` at
`auditPendingState` with interrupt 0. -/
theorem C8_lowest_eligible_delivered_then_fetch_witness :
    runCycle false none auditPendingState =
      execStep (interrupt (pollEffects false none auditPendingState) 0) ∧
    eligible (pollEffects false none auditPendingState) 0 = true ∧
    ∀ j, j < 0 → eligible (pollEffects false none auditPendingState) j = false :=
  C8_lowest_eligible_delivered_then_fetch false none auditPendingState 0 (by decide)

/-! ### C9: the 8-bit register invariant -/

/-- `setReg` with an 8-bit value preserves the register invariant. -/
theorem RegsOk_setReg (s : CPU) (i v : Nat) (hreg : RegsOk s) (hv : v ≤ 255) :
    RegsOk (setReg s i v) := by
  intro j hj
  rw [setReg_reg]
  split
  · exact hv
  · exact hreg j hj

/-- `setReg` with a masked value preserves the register invariant. -/
theorem RegsOk_mask8 (s : CPU) (i : Nat) (v : Int) (hreg : RegsOk s) :
    RegsOk (setReg s i (mask8 v)) :=
  RegsOk_setReg s i _ hreg (mask8_le v)

/-- `alu "INC"` preserves the register invariant. -/
theorem RegsOk_aluINC (s : CPU) (a : Nat) (hreg : RegsOk s) : RegsOk (aluINC s a) :=
  RegsOk_mask8 s a _ hreg

/-- `alu "DEC"` preserves the register invariant. -/
theorem RegsOk_aluDEC (s : CPU) (a : Nat) (hreg : RegsOk s) : RegsOk (aluDEC s a) :=
  RegsOk_mask8 s a _ hreg

/-- `POP` preserves both invariants: the popped value is a memory byte. -/
theorem POP_preserves (s : CPU) (r : Nat) (hreg : RegsOk s) (hram : RamOk s) :
    RegsOk (POP s r) ∧ RamOk (POP s r) :=
  ⟨RegsOk_aluINC _ 7 (RegsOk_setReg s r _ hreg (hram _)), fun a => hram a⟩

/-- Every `alu` result that exists keeps all registers 8-bit: each arm
stores a value of the form `mask8 v`. -/
theorem alu_preserves_RegsOk (s : CPU) (op : Mn) (a b : Nat) (t : CPU)
    (hreg : RegsOk s) (h : alu s op a b = some t) : RegsOk t := by
  cases op <;> simp only [alu, aluINC, aluDEC] at h <;>
    (try split at h) <;>
    first
      | exact Option.noConfusion h
      | (injection h with h
         subst h
         exact RegsOk_mask8 _ _ _ hreg)

/-- Bitwise or of two bytes is a byte. -/
theorem or_lt_256 (x y : Nat) (hx : x < 256) (hy : y < 256) : x ||| y < 256 := by
  have : x ||| y < 2 ^ 8 := Nat.or_lt_two_pow (by omega) (by omega)
  omega

/-- **C9, claim as stated is false.**  `auditInt8State` has every register
8-bit (with `reg[0] = 8`, itself a legal 8-bit value), yet executing INT
with register 0 computes `reg[6] |= 1 << 8` and leaves the Interrupt
Status register holding 256, which is not an unsigned 8-bit value. -/
theorem C9_counterexample_int_escapes_8bit :
    (∀ i, i < 8 → auditInt8State.reg i ≤ 255) ∧
    (INT auditInt8State 0).reg 6 = 256 ∧ ¬((INT auditInt8State 0).reg 6 ≤ 255) := by
  decide

/-- **C9** (corrected).  From a state whose registers and memory cells are
all 8-bit, every instruction handler keeps every register 8-bit — the ALU
operations because every stored result is masked, the loads and pops
because they store memory bytes — with the single exception of INT, which
preserves the invariant only when the interrupt number in the operand
register is below 8 (for larger values it ORs `1 << value` into the
Interrupt Status register unmasked, as the counterexample shows). -/
theorem C9_instructions_preserve_8bit_registers (s : CPU)
    (hreg : RegsOk s) (hram : RamOk s) :
    (∀ op a b t, alu s op a b = some t → RegsOk t) ∧
    (∀ r, RegsOk (CALL s r)) ∧
    RegsOk (HLT s) ∧
    (∀ r, s.reg r < 8 → RegsOk (INT s r)) ∧
    RegsOk (IRET s) ∧
    (∀ r, RegsOk (JEQ s r)) ∧ (∀ r, RegsOk (JGE s r)) ∧ (∀ r, RegsOk (JGT s r)) ∧
    (∀ r, RegsOk (JLE s r)) ∧ (∀ r, RegsOk (JLT s r)) ∧ (∀ r, RegsOk (JMP s r)) ∧
    (∀ r, RegsOk (JNE s r)) ∧
    (∀ a b, RegsOk (LD s a b)) ∧
    (∀ r imm, imm ≤ 255 → RegsOk (LDI s r imm)) ∧
    RegsOk (NOP s) ∧
    (∀ r, RegsOk (POP s r)) ∧
    (∀ r, RegsOk (PRA s r)) ∧ (∀ r, RegsOk (PRN s r)) ∧
    (∀ r, RegsOk (PUSH s r)) ∧
    RegsOk (RET s) ∧
    (∀ a b, RegsOk (ST s a b)) := by
  refine ⟨fun op a b t => alu_preserves_RegsOk s op a b t hreg,
    fun r => RegsOk_aluDEC _ 7 hreg,
    hreg,
    ?_,
    ?_,
    fun r => by unfold JEQ; split <;> exact hreg,
    fun r => by unfold JGE; split <;> exact hreg,
    fun r => by unfold JGT; split <;> exact hreg,
    fun r => by unfold JLE; split <;> exact hreg,
    fun r => by unfold JLT; split <;> exact hreg,
    fun r => hreg,
    fun r => by unfold JNE; split <;> exact hreg,
    fun a b => RegsOk_setReg s a _ hreg (hram _),
    fun r imm him => RegsOk_setReg s r imm hreg him,
    hreg,
    fun r => (POP_preserves s r hreg hram).1,
    fun r => hreg, fun r => hreg,
    fun r => RegsOk_aluDEC _ 7 hreg,
    RegsOk_aluINC _ 7 hreg,
    fun a b => hreg⟩
  · intro r hv
    apply RegsOk_setReg _ 6 _ hreg
    have h6 : s.reg 6 < 256 := by have := hreg 6 (by omega); omega
    have hsh : (1 <<< s.reg r) < 256 := by
      rw [Nat.shiftLeft_eq]
      have : (2 : Nat) ^ s.reg r ≤ 2 ^ 7 := Nat.pow_le_pow_right (by omega) (by omega)
      omega
    have := or_lt_256 _ _ h6 hsh
    omega
  · have h1 := POP_preserves s 6 hreg hram
    have h2 := POP_preserves _ 5 h1.1 h1.2
    have h3 := POP_preserves _ 4 h2.1 h2.2
    have h4 := POP_preserves _ 3 h3.1 h3.2
    have h5 := POP_preserves _ 2 h4.1 h4.2
    have h6 := POP_preserves _ 1 h5.1 h5.2
    have h7 := POP_preserves _ 0 h6.1 h6.2
    exact RegsOk_aluINC _ 7 (RegsOk_aluINC _ 7 h7.1)

/-- Witness for `C9_instructions_preserve_8bit_registers` at
`auditAluState`, projected at the CALL handler with register 0. -/
theorem C9_instructions_preserve_8bit_registers_witness :
    RegsOk (CALL auditAluState 0) := by
  have h := C9_instructions_preserve_8bit_registers auditAluState
    (by intro i hi; interval_cases i <;> decide)
    (by intro a; norm_num [auditAluState])
  exact h.2.1 0

/-! ### C10: which instructions may touch the flags byte -/

set_option maxRecDepth 100000 in
/-- `cmpFlags` only rewrites the three comparison bits: the flags byte
shifted past them is unchanged, for every 8-bit flags value. -/
theorem cmpFlags_hi : ∀ f, f < 256 → ∀ l g e : Bool,
    cmpFlags f l g e >>> 3 = f >>> 3 := by
  decide

/-- **C10, claim as stated is false.**  The claim says every handler other
than CMP and HLT — including IRET — leaves the flags byte unchanged.  But
`CPU.IRET` restores the saved flags byte from the stack: at
`auditIretState` (flags = 0, SP = 0xF0, saved-flags slot `ram[0xF7]` =
0xAB) it sets flags to 0xAB. -/
theorem C10_counterexample_iret_writes_flags :
    auditIretState.flags = 0 ∧ (IRET auditIretState).flags = 0xAB := by
  decide

/-- **C10** (corrected).  The jump, stack, call/return, load/store, print,
INT and NOP handlers, and every successful ALU operation other than CMP
(ADD, SUB, MUL, AND, OR, XOR, NOT, SHL, SHR, INC, DEC, and MOD with a
nonzero divisor), leave the flags byte unchanged; the flags byte is
written only by CMP (which rewrites the three comparison bits and preserves
every higher bit, the halt bit included), by HLT (which sets the halt bit),
by the DIV/MOD divide-by-zero path (which calls HLT), and by IRET (which
restores the flags byte saved on the stack, as the counterexample shows). -/
theorem C10_flags_written_only_by_cmp_hlt_iret (s : CPU) :
    ((∀ r, (JMP s r).flags = s.flags) ∧ (∀ r, (JEQ s r).flags = s.flags) ∧
     (∀ r, (JNE s r).flags = s.flags) ∧ (∀ r, (JGT s r).flags = s.flags) ∧
     (∀ r, (JGE s r).flags = s.flags) ∧ (∀ r, (JLT s r).flags = s.flags) ∧
     (∀ r, (JLE s r).flags = s.flags)) ∧
    ((∀ r, (PUSH s r).flags = s.flags) ∧ (∀ r, (POP s r).flags = s.flags) ∧
     (∀ r, (CALL s r).flags = s.flags) ∧ (RET s).flags = s.flags ∧
     (∀ r, (INT s r).flags = s.flags) ∧
     (∀ r, (PRA s r).flags = s.flags) ∧ (∀ r, (PRN s r).flags = s.flags) ∧
     (∀ a b, (LD s a b).flags = s.flags) ∧ (∀ a b, (LDI s a b).flags = s.flags) ∧
     (∀ a b, (ST s a b).flags = s.flags) ∧ (NOP s).flags = s.flags) ∧
    ((∀ a b t, alu s .ADD a b = some t → t.flags = s.flags) ∧
     (∀ a b t, alu s .SUB a b = some t → t.flags = s.flags) ∧
     (∀ a b t, alu s .MUL a b = some t → t.flags = s.flags) ∧
     (∀ a b t, alu s .AND a b = some t → t.flags = s.flags) ∧
     (∀ a b t, alu s .OR a b = some t → t.flags = s.flags) ∧
     (∀ a b t, alu s .XOR a b = some t → t.flags = s.flags) ∧
     (∀ a b t, alu s .NOT a b = some t → t.flags = s.flags) ∧
     (∀ a b t, alu s .SHL a b = some t → t.flags = s.flags) ∧
     (∀ a b t, alu s .SHR a b = some t → t.flags = s.flags) ∧
     (∀ a b t, alu s .INC a b = some t → t.flags = s.flags) ∧
     (∀ a b t, alu s .DEC a b = some t → t.flags = s.flags) ∧
     (∀ a b t, s.reg b ≠ 0 → alu s .MOD a b = some t → t.flags = s.flags)) ∧
    ((HLT s).flags = s.flags ||| 0b10000000) ∧
    (∀ a b t, s.reg b = 0 → alu s .DIV a b = some t → t.flags = s.flags ||| 0b10000000) ∧
    (∀ a b t, s.reg b = 0 → alu s .MOD a b = some t → t.flags = s.flags ||| 0b10000000) ∧
    (∀ a b t, s.flags < 256 → alu s .CMP a b = some t →
      t.flags >>> 3 = s.flags >>> 3) := by
  refine ⟨⟨fun r => by unfold JMP; rfl,
           fun r => by unfold JEQ; split <;> rfl,
           fun r => by unfold JNE; split <;> rfl,
           fun r => by unfold JGT; split <;> rfl,
           fun r => by unfold JGE; split <;> rfl,
           fun r => by unfold JLT; split <;> rfl,
           fun r => by unfold JLE; split <;> rfl⟩,
          ⟨fun r => rfl, fun r => rfl, fun r => rfl, rfl, fun r => rfl,
           fun r => rfl, fun r => rfl, fun a b => rfl, fun a b => rfl,
           fun a b => rfl, rfl⟩,
          ⟨?_, ?_, ?_, ?_, ?_, ?_, ?_, ?_, ?_, ?_, ?_, ?_⟩, rfl, ?_, ?_, ?_⟩
  all_goals intro a b t
  all_goals
    first
      | (intro h
         simp only [alu, aluINC, aluDEC] at h
         injection h with h
         subst h
         rfl)
      | (intro hz h
         simp only [alu] at h
         rw [if_pos hz] at h
         injection h with h
         subst h
         rfl)
      | (intro hz h
         simp only [alu] at h
         rw [if_neg hz] at h
         injection h with h
         subst h
         rfl)
      | (intro hf h
         simp only [alu] at h
         injection h with h
         subst h
         exact cmpFlags_hi s.flags hf _ _ _)

/-- Witness for `C10_flags_written_only_by_cmp_hlt_iret`: the CMP
component at `auditAluState` (flags 0, comparing registers 0 and 1). -/
theorem C10_flags_written_only_by_cmp_hlt_iret_witness :
    ∃ t, alu auditAluState .CMP 0 1 = some t ∧
      t.flags >>> 3 = auditAluState.flags >>> 3 :=
  ⟨_, rfl, (C10_flags_written_only_by_cmp_hlt_iret auditAluState).2.2.2.2.2.2
    0 1 _ (by decide) rfl⟩

end LS8
